import Mathlib

/-!
Shallow embedding of `src/main.py` of ShadowStrikeHQ/file-mime-converter.

The program is a command-line wrapper around the external `unoconv` binary.
`convert_file` validates that the input file exists, infers a target MIME
type from the output file's extension when none is given, resolves both
paths to absolute form, builds the argument vector
`[unoconv_path, "-f", <output suffix without dot>, "-o", <abs output>, <abs input>]`,
spawns the tool, and returns a boolean decided by the child's exit code.
`main` prints exactly one status line and never sets a failure exit code.

The operating-system services the program consults (filesystem queries,
path resolution, the `mimetypes` extension table, process spawning) are
collected into an `Env` record; the spawner may raise, modelling the
`FileNotFoundError` thrown by `subprocess.Popen` for a missing executable
and any other unexpected exception.  The embedding records every argument
vector passed to `subprocess.Popen` and every logged line, so claims about
"no process is spawned" and about diagnostics are statable.
-/

namespace FileMimeConverter

/-- Index of the last occurrence of `c` in `cs`, if any
(Python's `str.rfind`). -/
def lastIdxOf (c : Char) (cs : List Char) : Option Nat :=
  ((List.range cs.length).filter (fun i => cs.get? i = some c)).getLast?

/-- Split a character list at every occurrence of `sep`. -/
def splitChar (sep : Char) : List Char → List (List Char)
  | [] => [[]]
  | c :: cs =>
    let r := splitChar sep cs
    if c == sep then [] :: r
    else match r with
      | [] => [[c]]
      | g :: gs => (c :: g) :: gs

/-- The final path component as `pathlib.PurePath.name` computes it: split on
the separator, dropping empty and `"."` parts, and take the last part. -/
def pathName (p : String) : String :=
  let parts := (splitChar '/' p.toList).filter
    (fun g => !(g.isEmpty) && !(g == ['.']))
  String.mk (parts.getLast?.getD [])

/-- `pathlib.PurePath.suffix`: the part of the name from its last dot on,
empty unless that dot is at a position `i` with `0 < i < name.length - 1`. -/
def pathSuffix (p : String) : String :=
  let name := (pathName p).toList
  match lastIdxOf '.' name with
  | none => ""
  | some i => if 0 < i ∧ i < name.length - 1 then String.mk (name.drop i) else ""

/-- Python's `str.lstrip('.')`: drop every leading dot. -/
def lstripDot (s : String) : String :=
  String.mk (s.toList.dropWhile (fun c => c == '.'))

/-- The extension as `posixpath.splitext` (used by `mimetypes.guess_type`)
computes it: from the last dot after the last separator, provided some
non-dot character lies strictly between them. -/
def splitextExt (p : String) : String :=
  let cs := p.toList
  let start := match lastIdxOf '/' cs with
    | none => 0
    | some i => i + 1
  match lastIdxOf '.' cs with
  | none => ""
  | some d =>
    if d < start then ""
    else if (List.range d).any (fun j => decide (start ≤ j) && !(cs.get? j = some '.')) then
      String.mk (cs.drop d)
    else ""

/-- Python truthiness of `target_mime` (`None` and `""` are falsy). -/
def pyTruthy : Option String → Bool
  | none => false
  | some s => !(s == "")

/-- Outcome of a completed child process: `returncode` together with the
decoded captured standard output and standard error. -/
structure ProcResult where
  returncode : Int
  stdout : String
  stderr : String
deriving DecidableEq, Repr

/-- Exceptions the pipeline can raise: `FileNotFoundError` from
`subprocess.Popen` when the executable cannot be resolved, or any other
unexpected exception. -/
inductive PyError where
  | fileNotFound (msg : String)
  | other (msg : String)
deriving DecidableEq, Repr

/-- The operating-system services `convert_file` consults. -/
structure Env where
  /-- `pathlib.Path(p).is_file()`. -/
  isFile : String → Bool
  /-- `str(pathlib.Path(p).resolve())`: absolute, canonicalized form. -/
  resolve : String → String
  /-- The `mimetypes` extension table: keys are dotted extensions such as
  `".pdf"`, values MIME-type strings. -/
  mimeTypes : List (String × String)
  /-- `subprocess.Popen` + `communicate()` on an argument vector: either a
  completed process result or a raised exception. -/
  spawn : List String → Except PyError ProcResult

/-- Association-list lookup used for the `mimetypes` table. -/
def lookupAssoc (tbl : List (String × String)) (k : String) : Option String :=
  match tbl.find? (fun kv => kv.1 == k) with
  | some kv => some kv.2
  | none => none

/-- `str.lower`, character by character. -/
def lowerStr (s : String) : String :=
  String.mk (s.toList.map Char.toLower)

/-- `mimetypes.guess_type(p)[0]`: look up the `splitext` extension of `p`
(first as written, then lowercased) in the extension table; no extension
means no guess. -/
def guessType (e : Env) (p : String) : Option String :=
  let ext := splitextExt p
  if ext = "" then none
  else match lookupAssoc e.mimeTypes ext with
    | some t => some t
    | none => lookupAssoc e.mimeTypes (lowerStr ext)

/-- The argument vector built at lines 60–65 of `main.py`:
`[unoconv_path, '-f', suffix of resolved output without dots, '-o',
resolved output, resolved input]`. -/
def builtCommand (e : Env) (input_file output_file unoconv_path : String) :
    List String :=
  [unoconv_path, "-f", lstripDot (pathSuffix (e.resolve output_file)), "-o",
   e.resolve output_file, e.resolve input_file]

/-- Result of the `try:` block of `convert_file`: a normal boolean return
or an exception escaping the block. -/
inductive BodyResult where
  | ret (ok : Bool)
  | exc (err : PyError)
deriving DecidableEq, Repr

/-- Execution record of the `try:` block: its result, the argument vectors
passed to `subprocess.Popen`, and the logged lines, in order. -/
structure Trace where
  value : BodyResult
  popenCalls : List (List String)
  logs : List String
deriving DecidableEq, Repr

/-- Lines 55–80 of `main.py`, reached once the input file exists and the
target format is resolved: build the command, spawn the tool, and interpret
its return code. -/
def spawnTrace (e : Env) (input_file output_file : String)
    (target_mime : Option String) (unoconv_path : String) : Trace :=
  let inferLogs : List String :=
    if pyTruthy target_mime then []
    else ["Inferred target MIME type: " ++ ((guessType e output_file).getD "")]
  let command := builtCommand e input_file output_file unoconv_path
  let logs0 := inferLogs ++ ["Executing command: " ++ String.intercalate " " command]
  match e.spawn command with
  | .error err => ⟨.exc err, [command], logs0⟩
  | .ok r =>
    if r.returncode ≠ 0 then
      ⟨.ret false, [command],
        logs0 ++ ["Conversion failed with return code " ++ toString r.returncode,
                  "Stdout: " ++ r.stdout,
                  "Stderr: " ++ r.stderr]⟩
    else
      ⟨.ret true, [command],
        logs0 ++ ["Conversion successful. Output file: " ++ e.resolve output_file]⟩

/-- The `try:` block of `convert_file` (lines 38–80 of `main.py`). -/
def convertFileBody (e : Env) (input_file output_file : String)
    (target_mime : Option String) (unoconv_path : String) : Trace :=
  if e.isFile input_file = false then
    ⟨.ret false, [], ["Input file not found: " ++ input_file]⟩
  else if pyTruthy target_mime = false ∧ pyTruthy (guessType e output_file) = false then
    ⟨.ret false, [],
      ["Could not infer target MIME type from output file extension: "
        ++ lstripDot (pathSuffix output_file) ++ ".  Please specify --target_mime."]⟩
  else
    spawnTrace e input_file output_file target_mime unoconv_path

/-- What `convert_file` observably produces: its boolean return value, the
argument vectors passed to `subprocess.Popen`, and the logged lines. -/
structure ConvertOutcome where
  ok : Bool
  popenCalls : List (List String)
  logs : List String
deriving DecidableEq, Repr

/-- `convert_file` of `main.py`: the `try:` block wrapped in the
`except FileNotFoundError` / `except Exception` handlers, both of which
log and return `False`. -/
def convert_file (e : Env) (input_file output_file : String)
    (target_mime : Option String) (unoconv_path : String) : ConvertOutcome :=
  let t := convertFileBody e input_file output_file target_mime unoconv_path
  match t.value with
  | .ret b => ⟨b, t.popenCalls, t.logs⟩
  | .exc (.fileNotFound m) =>
      ⟨false, t.popenCalls,
        t.logs ++ ["Error: unoconv not found. Please ensure it is installed and in your PATH. " ++ m]⟩
  | .exc (.other m) =>
      ⟨false, t.popenCalls, t.logs ++ ["An unexpected error occurred: " ++ m]⟩

/-- Parsed command-line arguments (`setup_argparse` of `main.py`). -/
structure Args where
  input_file : String
  output_file : String
  target_mime : Option String
  unoconv_path : String
  debug : Bool

/-- Observable outcome of a run of the program: the lines printed to
standard output and the process exit code. -/
structure MainOutcome where
  printed : List String
  exitCode : Nat
deriving DecidableEq, Repr

/-- `main` of `main.py` (lines 90–103): call `convert_file` once, print one
of two status lines, return normally (so the interpreter exits with 0). -/
def main (e : Env) (a : Args) : MainOutcome :=
  if (convert_file e a.input_file a.output_file a.target_mime a.unoconv_path).ok then
    { printed := ["File successfully converted to " ++ a.output_file], exitCode := 0 }
  else
    { printed := ["File conversion failed."], exitCode := 0 }

/-! ### Concrete environments used to instantiate the theorems -/

/-- A sample of the standard `mimetypes` extension table. -/
def stdMimeTypes : List (String × String) :=
  [(".pdf", "application/pdf"),
   (".odt", "application/vnd.oasis.opendocument.text"),
   (".docx", "application/vnd.openxmlformats-officedocument.wordprocessingml.document"),
   (".txt", "text/plain")]

/-- Environment builder: `report.odt` exists, paths resolve under `/abs`,
and the process spawner is the given one. -/
def mkEnv (sp : List String → Except PyError ProcResult) : Env :=
  { isFile := fun p => p == "report.odt"
  , resolve := fun p => "/abs/" ++ p
  , mimeTypes := stdMimeTypes
  , spawn := sp }

/-- Environment whose tool always exits 0 silently. -/
def envOk : Env := mkEnv (fun _ => .ok ⟨0, "", ""⟩)

/-- Environment whose tool always exits 1 with diagnostic output. -/
def envFail : Env := mkEnv (fun _ => .ok ⟨1, "out text", "err text"⟩)

/-- Environment where spawning raises `FileNotFoundError` (tool missing). -/
def envNoTool : Env := mkEnv (fun _ => .error (.fileNotFound "no unoconv"))

/-- Environment where spawning raises an unexpected exception. -/
def envBoom : Env := mkEnv (fun _ => .error (.other "boom"))

/-- Environment where no input file exists. -/
def envMissing : Env :=
  { isFile := fun _ => false
  , resolve := fun p => "/abs/" ++ p
  , mimeTypes := stdMimeTypes
  , spawn := fun _ => .ok ⟨0, "", ""⟩ }

/-! ### Helper lemmas -/

/-- `convert_file` reports exactly the `Popen` calls of its `try:` block. -/
theorem convert_file_popenCalls (e : Env) (i o : String) (t : Option String) (u : String) :
    (convert_file e i o t u).popenCalls = (convertFileBody e i o t u).popenCalls := by
  unfold convert_file
  rcases hv : (convertFileBody e i o t u).value with b | err
  · simp [hv]
  · cases err <;> simp [hv]

/-- `convert_file` reaches the spawn stage exactly when the input file
exists and the target format resolves; there the block is `spawnTrace`. -/
theorem convertFileBody_reach (e : Env) (i o : String) (t : Option String) (u : String)
    (hfile : e.isFile i = true)
    (hfmt : pyTruthy t = true ∨ pyTruthy (guessType e o) = true) :
    convertFileBody e i o t u = spawnTrace e i o t u := by
  have h1 : ¬ (e.isFile i = false) := by simp [hfile]
  have h2 : ¬ (pyTruthy t = false ∧ pyTruthy (guessType e o) = false) := by
    rcases hfmt with h | h <;> simp [h]
  unfold convertFileBody
  rw [if_neg h1, if_neg h2]

/-- Once the spawn stage is reached, the single recorded `Popen` call is the
built command. -/
theorem spawnTrace_popenCalls (e : Env) (i o : String) (t : Option String) (u : String) :
    (spawnTrace e i o t u).popenCalls = [builtCommand e i o u] := by
  unfold spawnTrace
  rcases hs : e.spawn (builtCommand e i o u) with err | r
  · simp [hs]
  · by_cases hr : r.returncode = 0 <;> simp [hs, hr]

/-- The spawn stage never consults a truthy explicit target format. -/
theorem spawnTrace_truthy (e : Env) (i o : String) (t t' : Option String) (u : String)
    (ht : pyTruthy t = true) (ht' : pyTruthy t' = true) :
    spawnTrace e i o t u = spawnTrace e i o t' u := by
  unfold spawnTrace
  rw [ht, ht']

/-- Every run records either no `Popen` call or exactly the built command. -/
theorem popenCalls_nil_or_built (e : Env) (i o : String) (t : Option String) (u : String) :
    (convert_file e i o t u).popenCalls = [] ∨
    (convert_file e i o t u).popenCalls = [builtCommand e i o u] := by
  rw [convert_file_popenCalls]
  unfold convertFileBody
  split
  · left; rfl
  · split
    · left; rfl
    · right; exact spawnTrace_popenCalls e i o t u

/-! ### Claim theorems -/

/-- C1: for every call to `convert_file` with an existing input file and an
output path whose extension the MIME table recognizes (path resolution
preserving the output suffix, as it does for ordinary file paths), the
argument vector handed to the external process is exactly
`[toolPath, "-f", ext, "-o", absOutput, absInput]`, where `ext` is the
output path's extension with its leading dot removed and `absOutput`,
`absInput` are the resolved absolute forms of the two paths. -/
theorem c1_argument_vector (e : Env) (input_file output_file unoconv_path : String)
    (target_mime : Option String)
    (hfile : e.isFile input_file = true)
    (hext : pyTruthy (guessType e output_file) = true)
    (hres : pathSuffix (e.resolve output_file) = pathSuffix output_file) :
    (convert_file e input_file output_file target_mime unoconv_path).popenCalls =
      [[unoconv_path, "-f", lstripDot (pathSuffix output_file), "-o",
        e.resolve output_file, e.resolve input_file]] := by
  rw [convert_file_popenCalls,
      convertFileBody_reach e input_file output_file target_mime unoconv_path hfile
        (Or.inr hext),
      spawnTrace_popenCalls]
  simp only [builtCommand, hres]

/-- Witness for C1 at the spec's own example scenario. -/
theorem c1_argument_vector_witness :
    envOk.isFile "report.odt" = true ∧
    pyTruthy (guessType envOk "report.pdf") = true ∧
    pathSuffix (envOk.resolve "report.pdf") = pathSuffix "report.pdf" ∧
    (convert_file envOk "report.odt" "report.pdf" none "unoconv").popenCalls =
      [["unoconv", "-f", lstripDot (pathSuffix "report.pdf"), "-o",
        envOk.resolve "report.pdf", envOk.resolve "report.odt"]] :=
  ⟨by decide, by decide, by decide,
   c1_argument_vector envOk "report.odt" "report.pdf" "unoconv" none
     (by decide) (by decide) (by decide)⟩

/-- C4: for every input path that the filesystem does not report as an
existing regular file, `convert_file` returns failure and passes no
argument vector to the process spawner. -/
theorem c4_missing_input_no_spawn (e : Env) (i o : String) (t : Option String) (u : String)
    (h : e.isFile i = false) :
    (convert_file e i o t u).ok = false ∧
    (convert_file e i o t u).popenCalls = [] := by
  refine ⟨?_, ?_⟩ <;> simp [convert_file, convertFileBody, h]

/-- Witness for C4: a nonexistent input file. -/
theorem c4_missing_input_no_spawn_witness :
    envMissing.isFile "gone.odt" = false ∧
    (convert_file envMissing "gone.odt" "out.pdf" none "unoconv").ok = false ∧
    (convert_file envMissing "gone.odt" "out.pdf" none "unoconv").popenCalls = [] :=
  ⟨by decide,
   (c4_missing_input_no_spawn envMissing "gone.odt" "out.pdf" none "unoconv" (by decide)).1,
   (c4_missing_input_no_spawn envMissing "gone.odt" "out.pdf" none "unoconv" (by decide)).2⟩

/-- C5: with no explicit target format, when the output path has no
extension or the extension lookup yields nothing, `convert_file` returns
failure and passes no argument vector to the process spawner. -/
theorem c5_unresolvable_format_no_spawn (e : Env) (i o u : String)
    (h : splitextExt o = "" ∨ guessType e o = none) :
    (convert_file e i o none u).ok = false ∧
    (convert_file e i o none u).popenCalls = [] := by
  have hg : guessType e o = none := by
    rcases h with h | h
    · simp [guessType, h]
    · exact h
  cases hf : e.isFile i
  · refine ⟨?_, ?_⟩ <;> simp [convert_file, convertFileBody, hf]
  · refine ⟨?_, ?_⟩ <;> simp [convert_file, convertFileBody, hf, hg, pyTruthy]

/-- Witness for C5: an output extension absent from the table. -/
theorem c5_unresolvable_format_no_spawn_witness :
    (splitextExt "out.xyz" = "" ∨ guessType envOk "out.xyz" = none) ∧
    (convert_file envOk "report.odt" "out.xyz" none "unoconv").ok = false ∧
    (convert_file envOk "report.odt" "out.xyz" none "unoconv").popenCalls = [] :=
  ⟨Or.inr (by decide),
   (c5_unresolvable_format_no_spawn envOk "report.odt" "out.xyz" "unoconv"
     (Or.inr (by decide))).1,
   (c5_unresolvable_format_no_spawn envOk "report.odt" "out.xyz" "unoconv"
     (Or.inr (by decide))).2⟩

/-- C7: any exception escaping the `try:` block — the `FileNotFoundError`
of a missing executable or any unexpected exception — is caught by the
handlers of `convert_file` and turned into the boolean failure result, so
no exception reaches the caller. -/
theorem c7_catch_all_failure (e : Env) (i o : String) (t : Option String) (u : String)
    (err : PyError)
    (h : (convertFileBody e i o t u).value = BodyResult.exc err) :
    (convert_file e i o t u).ok = false := by
  unfold convert_file
  rcases err with m | m <;> simp [h]

/-- Witness for C7: a spawner raising an unexpected exception. -/
theorem c7_catch_all_failure_witness :
    (convertFileBody envBoom "report.odt" "out.pdf" (some "application/pdf") "unoconv").value
      = BodyResult.exc (PyError.other "boom") ∧
    (convert_file envBoom "report.odt" "out.pdf" (some "application/pdf") "unoconv").ok
      = false :=
  ⟨by decide,
   c7_catch_all_failure envBoom "report.odt" "out.pdf" (some "application/pdf") "unoconv"
     (PyError.other "boom") (by decide)⟩

/-- C8: every run of the program prints exactly one of the two status
lines — the success line naming the output file, or the failure line — the
process exit code is 0 in both cases, and the boolean result of
`convert_file` only selects which line is printed. -/
theorem c8_single_status_line_exit_zero (e : Env) (a : Args) :
    (main e a).printed.length = 1 ∧ (main e a).exitCode = 0 ∧
    (main e a).printed =
      (if (convert_file e a.input_file a.output_file a.target_mime a.unoconv_path).ok
        then ["File successfully converted to " ++ a.output_file]
        else ["File conversion failed."]) := by
  unfold main
  cases h : (convert_file e a.input_file a.output_file a.target_mime a.unoconv_path).ok <;>
    simp [h]

/-- C2: the `-f` flag handed to the external tool is always the output
path's extension with the dot stripped, never the supplied target format,
and two invocations differing only in their non-empty explicit target
formats produce identical outcomes (result, `Popen` calls and logs). -/
theorem c2_explicit_target_not_used (e : Env)
    (input_file output_file unoconv_path t1 t2 : String)
    (h1 : t1 ≠ "") (h2 : t2 ≠ "")
    (hres : pathSuffix (e.resolve output_file) = pathSuffix output_file) :
    convert_file e input_file output_file (some t1) unoconv_path =
      convert_file e input_file output_file (some t2) unoconv_path ∧
    ∀ c ∈ (convert_file e input_file output_file (some t1) unoconv_path).popenCalls,
      c.get? 2 = some (lstripDot (pathSuffix output_file)) := by
  have ht1 : pyTruthy (some t1) = true := by simp [pyTruthy, h1]
  have ht2 : pyTruthy (some t2) = true := by simp [pyTruthy, h2]
  have hbody : convertFileBody e input_file output_file (some t1) unoconv_path =
      convertFileBody e input_file output_file (some t2) unoconv_path := by
    unfold convertFileBody
    rw [spawnTrace_truthy e input_file output_file (some t1) (some t2) unoconv_path ht1 ht2,
        ht1, ht2]
  refine ⟨by unfold convert_file; rw [hbody], ?_⟩
  intro c hc
  rcases popenCalls_nil_or_built e input_file output_file (some t1) unoconv_path with h | h
  · rw [h] at hc
    exact absurd hc (List.not_mem_nil c)
  · rw [h] at hc
    cases hc with
    | head => simp [builtCommand, hres]
    | tail _ hmem => exact absurd hmem (List.not_mem_nil c)

/-- Witness for C2: two distinct MIME overrides on the same call. -/
theorem c2_explicit_target_not_used_witness :
    (convert_file envOk "report.odt" "report.pdf" (some "application/pdf") "unoconv" =
      convert_file envOk "report.odt" "report.pdf" (some "text/plain") "unoconv") ∧
    ∀ c ∈ (convert_file envOk "report.odt" "report.pdf"
        (some "application/pdf") "unoconv").popenCalls,
      c.get? 2 = some (lstripDot (pathSuffix "report.pdf")) :=
  c2_explicit_target_not_used envOk "report.odt" "report.pdf" "unoconv"
    "application/pdf" "text/plain" (by decide) (by decide) (by decide)

/-- C3: once the child process runs to completion, `convert_file` succeeds
exactly when its exit code is zero, whatever the captured streams hold; on
a non-zero exit code it fails and the logged diagnostics contain the
captured stdout and stderr text verbatim. -/
theorem c3_exit_code_decides (e : Env) (input_file output_file unoconv_path : String)
    (target_mime : Option String) (r : ProcResult)
    (hfile : e.isFile input_file = true)
    (hfmt : pyTruthy target_mime = true ∨ pyTruthy (guessType e output_file) = true)
    (hrun : e.spawn (builtCommand e input_file output_file unoconv_path) = Except.ok r) :
    ((convert_file e input_file output_file target_mime unoconv_path).ok = true ↔
      r.returncode = 0) ∧
    (r.returncode ≠ 0 →
      ("Stdout: " ++ r.stdout)
        ∈ (convert_file e input_file output_file target_mime unoconv_path).logs ∧
      ("Stderr: " ++ r.stderr)
        ∈ (convert_file e input_file output_file target_mime unoconv_path).logs) := by
  have hb := convertFileBody_reach e input_file output_file target_mime unoconv_path
    hfile hfmt
  by_cases hr : r.returncode = 0
  · refine ⟨?_, fun h => absurd hr h⟩
    simp [convert_file, hb, spawnTrace, hrun, hr]
  · refine ⟨?_, fun _ => ⟨?_, ?_⟩⟩ <;>
      simp [convert_file, hb, spawnTrace, hrun, hr]

/-- Witness for C3: a child exiting 1 with diagnostic output. -/
theorem c3_exit_code_decides_witness :
    ((convert_file envFail "report.odt" "report.pdf" none "unoconv").ok = true ↔
      (1 : Int) = 0) ∧
    ("Stdout: " ++ "out text")
      ∈ (convert_file envFail "report.odt" "report.pdf" none "unoconv").logs ∧
    ("Stderr: " ++ "err text")
      ∈ (convert_file envFail "report.odt" "report.pdf" none "unoconv").logs := by
  have h := c3_exit_code_decides envFail "report.odt" "report.pdf" "unoconv" none
    ⟨1, "out text", "err text"⟩ (by decide) (Or.inr (by decide)) rfl
  exact ⟨h.1, (h.2 (by decide)).1, (h.2 (by decide)).2⟩

/-- C6: when spawning the tool raises `FileNotFoundError`, `convert_file`
returns failure, its log names the missing-tool condition, and (being a
total function of the handled trace) it raises nothing to its caller. -/
theorem c6_missing_tool_failure (e : Env) (i o : String) (t : Option String) (u m : String)
    (hfile : e.isFile i = true)
    (hfmt : pyTruthy t = true ∨ pyTruthy (guessType e o) = true)
    (hrun : e.spawn (builtCommand e i o u) = Except.error (PyError.fileNotFound m)) :
    (convert_file e i o t u).ok = false ∧
    ("Error: unoconv not found. Please ensure it is installed and in your PATH. " ++ m)
      ∈ (convert_file e i o t u).logs := by
  have hb := convertFileBody_reach e i o t u hfile hfmt
  refine ⟨?_, ?_⟩ <;> simp [convert_file, hb, spawnTrace, hrun]

/-- Witness for C6: an environment with no resolvable tool executable. -/
theorem c6_missing_tool_failure_witness :
    (convert_file envNoTool "report.odt" "report.pdf" none "unoconv").ok = false ∧
    ("Error: unoconv not found. Please ensure it is installed and in your PATH. "
        ++ "no unoconv")
      ∈ (convert_file envNoTool "report.odt" "report.pdf" none "unoconv").logs :=
  c6_missing_tool_failure envNoTool "report.odt" "report.pdf" none "unoconv" "no unoconv"
    (by decide) (Or.inr (by decide)) rfl

/-- C9 counterexample: an invocation whose input file does not exist spawns
zero child processes, refuting "exactly one child process is spawned per
invocation of the driver". -/
theorem c9_exactly_one_spawn_counterexample :
    ¬ ((convert_file envMissing "gone.odt" "out.pdf" none
        "unoconv").popenCalls.length = 1) := by
  decide

/-- C9 (amended): at most one child process is spawned per invocation of
the driver — it never spawns a second within one invocation (and, the
execution being sequential, a spawned child is always waited on before the
result is decided). -/
theorem c9_at_most_one_spawn (e : Env) (i o : String) (t : Option String) (u : String) :
    (convert_file e i o t u).popenCalls.length ≤ 1 := by
  rcases popenCalls_nil_or_built e i o t u with h | h <;> simp [h]

/-- C10: with an explicit target format the output extension is never
validated — for any existing input file the external process is invoked
regardless, and an extensionless output path makes the `-f` argument the
empty string. -/
theorem c10_no_extension_validation_with_explicit_target (e : Env) (i o u t : String)
    (ht : t ≠ "") (hfile : e.isFile i = true) :
    (convert_file e i o (some t) u).popenCalls =
      [[u, "-f", lstripDot (pathSuffix (e.resolve o)), "-o", e.resolve o, e.resolve i]] ∧
    (pathSuffix (e.resolve o) = "" →
      (convert_file e i o (some t) u).popenCalls =
        [[u, "-f", "", "-o", e.resolve o, e.resolve i]]) := by
  have htt : pyTruthy (some t) = true := by simp [pyTruthy, ht]
  have h : (convert_file e i o (some t) u).popenCalls = [builtCommand e i o u] := by
    rw [convert_file_popenCalls, convertFileBody_reach e i o (some t) u hfile (Or.inl htt),
        spawnTrace_popenCalls]
  refine ⟨by rw [h]; simp [builtCommand], fun hs => ?_⟩
  rw [h]
  simp [builtCommand, hs, lstripDot]

/-- Witness for C10: an extensionless output path with an explicit target. -/
theorem c10_no_extension_validation_with_explicit_target_witness :
    (convert_file envOk "report.odt" "outnoext"
        (some "application/pdf") "unoconv").popenCalls =
      [["unoconv", "-f", lstripDot (pathSuffix (envOk.resolve "outnoext")), "-o",
        envOk.resolve "outnoext", envOk.resolve "report.odt"]] ∧
    (convert_file envOk "report.odt" "outnoext"
        (some "application/pdf") "unoconv").popenCalls =
      [["unoconv", "-f", "", "-o", envOk.resolve "outnoext",
        envOk.resolve "report.odt"]] := by
  have h := c10_no_extension_validation_with_explicit_target envOk "report.odt" "outnoext"
    "unoconv" "application/pdf" (by decide) (by decide)
  exact ⟨h.1, h.2 (by decide)⟩

end FileMimeConverter
